import Mathlib

/-!
# RainSafe — verification of the hybrid flood-risk assessment core

The repository's decision logic (Threshold Evaluator, Predictive Evaluator,
Risk Combiner, Risk Assessment Engine) lives in backend Python services
(`app/services/risk_service.py`, `app/models/flood_predictor.py`) that are
described by `backend/docs/ARCHITECTURE.md` but are not among the provided
sources; those components are modelled here from the specification, as the
doc comments note. The frontend React components (`App.jsx`,
`FloodRiskCard`, `WeatherCard`) are present as JSX sources and are embedded
from them directly.
-/

namespace RainSafe

/-- Modelled from the spec: the ordered enum
`RiskLevel = {None, Low, Moderate, High, Severe}`, totally ordered by
severity. The backend module defining it is not among the provided sources;
`ARCHITECTURE.md` ("reports the highest risk level") and the spec's data
model fix the five levels and their order. -/
inductive RiskLevel where
  | none
  | low
  | moderate
  | high
  | severe
deriving DecidableEq, Repr, Fintype

/-- Numeric rank of a risk level, realising the spec's total order
`None < Low < Moderate < High < Severe`. -/
def RiskLevel.rank : RiskLevel → Nat
  | .none => 0
  | .low => 1
  | .moderate => 2
  | .high => 3
  | .severe => 4

instance : LinearOrder RiskLevel :=
  LinearOrder.lift' RiskLevel.rank
    (by intro a b h; cases a <;> cases b <;> simp_all [RiskLevel.rank])

/-- Modelled from the spec: the Risk Combiner,
`combine(thresholdLevel, predictedLevel) -> RiskLevel`, which "returns the
maximum of the two inputs under the RiskLevel ordering". The backend
`risk_service.py` implementing it is not among the provided sources. -/
def combine (a b : RiskLevel) : RiskLevel :=
  if b.rank ≤ a.rank then a else b

/-- Modelled from the spec: `GeoPoint {latitude: float, longitude: float}`.
A float can be non-finite (NaN/∞), which ℚ cannot represent, so each
coordinate is an `Option ℚ` whose `Option.none` stands for a non-finite
value. -/
structure GeoPoint where
  latitude : Option ℚ
  longitude : Option ℚ
deriving DecidableEq, Repr

/-- Modelled from the spec: validity of a query `GeoPoint` — both
coordinates finite, latitude in [-90, 90], longitude in [-180, 180]
("non-finite or out-of-range latitude/longitude" is the invalid case). -/
def validGeoPoint (p : GeoPoint) : Bool :=
  match p.latitude, p.longitude with
  | some lat, some lon =>
      decide (-90 ≤ lat) && decide (lat ≤ 90) &&
      decide (-180 ≤ lon) && decide (lon ≤ 180)
  | _, _ => false

/-- Modelled from the spec: a user `Report`
`{location, description, severity (derived-from-text), submittedAt}`.
Timestamps are integers (epoch seconds). -/
structure Report where
  location : GeoPoint
  description : String
  severity : String
  submittedAt : Int
deriving DecidableEq, Repr

/-- Modelled from the spec: the Threshold Evaluator's severity-to-level
text mapping — "ankle-deep" ↦ Low, "knee-deep" ↦ Moderate,
"waist-deep or higher" ↦ Severe, anything unparseable defaults to Low. -/
def severityToLevel (s : String) : RiskLevel :=
  if s = "ankle-deep" then RiskLevel.low
  else if s = "knee-deep" then RiskLevel.moderate
  else if s = "waist-deep or higher" then RiskLevel.severe
  else RiskLevel.low

/-- The risk level contributed by one report. -/
def levelOfReport (r : Report) : RiskLevel := severityToLevel r.severity

/-- Modelled from the spec: the defensive freshness re-check of the
Threshold Evaluator — a report is fresh when its age `now - submittedAt`
does not exceed the recency window. -/
def reportFresh (now window : Int) (r : Report) : Bool :=
  decide (now - r.submittedAt ≤ window)

/-- Modelled from the spec: the Threshold Evaluator
`evaluate(reports) -> RiskLevel`: ignore stale reports, map each remaining
severity to a level, and return the maximum, failing closed to `None` on
the empty sequence. -/
def evaluate (now window : Int) (reports : List Report) : RiskLevel :=
  ((reports.filter (reportFresh now window)).map levelOfReport).foldl
    combine RiskLevel.none

/-- Maximum of a list of risk levels (`None` for the empty list), the
reference value the Threshold Evaluator must compute on fresh input. -/
def maxLevel (ls : List RiskLevel) : RiskLevel :=
  ls.foldl max RiskLevel.none

/-- Modelled from the spec: a `WeatherObservation` owned by the Weather
Store. Numeric fields are `Option ℚ` so that a missing or non-finite
sensor reading is representable. -/
structure WeatherObservation where
  location : GeoPoint
  temperature : Option ℚ
  humidity : Option ℚ
  precipitation : Option ℚ
  pressure : Option ℚ
  windSpeed : Option ℚ
  observedAt : Int
deriving DecidableEq, Repr

/-- Modelled from the spec: the fixed-order `WeatherFeatureVector`
(temperature, humidity, recent precipitation accumulation, pressure,
wind speed). -/
structure WeatherFeatureVector where
  temperature : Option ℚ
  humidity : Option ℚ
  precipitation : Option ℚ
  pressure : Option ℚ
  windSpeed : Option ℚ
deriving DecidableEq, Repr

/-- Feature extraction from a weather observation, in the fixed order of
the trained-model contract. -/
def featuresOf (w : WeatherObservation) : WeatherFeatureVector :=
  { temperature := w.temperature
    humidity := w.humidity
    precipitation := w.precipitation
    pressure := w.pressure
    windSpeed := w.windSpeed }

/-- A feature is usable when present and inside the given plausible
range. -/
def featureInRange (lo hi : ℚ) : Option ℚ → Bool
  | Option.none => false
  | some q => decide (lo ≤ q) && decide (q ≤ hi)

/-- Modelled from the spec: "required features missing or out of
physically plausible range" fail validation. The spec leaves the exact
ranges open ("an implementer must fix these as an explicit, versioned
contract"), so standard physical bounds are fixed here: temperature
-90..60 °C, humidity 0..100 %, precipitation 0..1000 mm, pressure
300..1100 hPa, wind speed 0..150 m/s. -/
def validFeatures (v : WeatherFeatureVector) : Bool :=
  featureInRange (-90) 60 v.temperature &&
  featureInRange 0 100 v.humidity &&
  featureInRange 0 1000 v.precipitation &&
  featureInRange 300 1100 v.pressure &&
  featureInRange 0 150 v.windSpeed

/-- Modelled from the spec: the engine's error taxonomy restricted to the
conditions with distinct behaviour; `NoWeatherData` / `StoreUnavailable`
appear as absent store results, not as errors. -/
inductive EngineError where
  | invalidLocation
  | invalidFeatureVector
deriving DecidableEq, Repr

/-- Modelled from the spec: the fixed-rule fallback Predictive Evaluator —
"precipitation-accumulation thresholds" bucketing a score into a
RiskLevel. -/
def bucketPrecip (q : ℚ) : RiskLevel :=
  if 50 ≤ q then RiskLevel.severe
  else if 30 ≤ q then RiskLevel.high
  else if 15 ≤ q then RiskLevel.moderate
  else if 5 ≤ q then RiskLevel.low
  else RiskLevel.none

/-- Modelled from the spec: the Predictive Evaluator
`predict(features) -> RiskLevel`, failing with `InvalidFeatureVector` when
required features are missing or implausible, and otherwise bucketing the
precipitation signal. -/
def predict (v : WeatherFeatureVector) : Except EngineError RiskLevel :=
  match v.precipitation with
  | some q =>
      if validFeatures v then Except.ok (bucketPrecip q)
      else Except.error EngineError.invalidFeatureVector
  | Option.none => Except.error EngineError.invalidFeatureVector

/-- Modelled from the spec: the two external store readers, injected into
the engine: `findRecent` (Report Store) and `latestFor` (Weather Store,
`Option.none` meaning `NoWeatherData` / no fresh observation). -/
structure Env where
  findRecent : GeoPoint → List Report
  latestFor : GeoPoint → Option WeatherObservation

/-- Modelled from the spec: the `RiskAssessment` result record. -/
structure RiskAssessment where
  location : GeoPoint
  thresholdLevel : RiskLevel
  predictedLevel : RiskLevel
  finalLevel : RiskLevel
  evaluatedAt : Int
deriving DecidableEq, Repr

/-- Modelled from the spec: the fixed recency window ("the last few
hours"), fixed here at six hours in seconds. -/
def recencyWindow : Int := 6 * 3600

/-- The predicted sub-verdict for a query: `None` when the weather store
has no fresh observation (`NoWeatherData`) or when `predict` fails with
`InvalidFeatureVector` — both conditions degrade rather than abort. -/
def predictedOf (env : Env) (p : GeoPoint) : RiskLevel :=
  match env.latestFor p with
  | Option.none => RiskLevel.none
  | some w =>
      match predict (featuresOf w) with
      | Except.ok l => l
      | Except.error _ => RiskLevel.none

/-- The assessment the engine builds for a valid query: both sub-verdicts
plus their combination, stamped with the current time. -/
def mkAssessment (env : Env) (now : Int) (p : GeoPoint) : RiskAssessment :=
  { location := p
    thresholdLevel := evaluate now recencyWindow (env.findRecent p)
    predictedLevel := predictedOf env p
    finalLevel :=
      combine (evaluate now recencyWindow (env.findRecent p)) (predictedOf env p)
    evaluatedAt := now }

/-- Modelled from the spec: the Risk Assessment Engine
`assess(point) -> RiskAssessment | fails(InvalidLocation)`. A malformed
`GeoPoint` is rejected before any store access; every other condition
yields a best-effort `RiskAssessment`. -/
def assess (env : Env) (now : Int) (p : GeoPoint) :
    Except EngineError RiskAssessment :=
  if validGeoPoint p then Except.ok (mkAssessment env now p)
  else Except.error EngineError.invalidLocation

end RainSafe

namespace Frontend

/-- Props of the `FloodRiskCard` React component
(`frontend/src/components/FloodRiskCard.jsx`): `location`, `temperature`,
`riskLevel`. -/
structure FloodRiskCardProps where
  location : String
  temperature : Int
  riskLevel : String
deriving DecidableEq, Repr

/-- The dynamic text nodes rendered by `FloodRiskCard`, in document order:
the hard-coded location line "Dhaka, Bangladesh", the temperature heading,
and the hard-coded caption "Mostly sunny". The remaining JSX is purely
decorative styled divs with no text. -/
def floodRiskCardRender (props : FloodRiskCardProps) : List String :=
  ["Dhaka, Bangladesh", toString props.temperature ++ "°C", "Mostly sunny"]

/-- The props `App.jsx` passes to `FloodRiskCard`:
`location="Dhaka, Bangladesh" temperature={25} riskLevel="moderate"`. -/
def appFloodRiskCardProps : FloodRiskCardProps :=
  { location := "Dhaka, Bangladesh", temperature := 25, riskLevel := "moderate" }

/-- Props of the `WeatherCard` React component
(`frontend/src/components/WeatherCard.jsx`). -/
structure WeatherCardProps where
  location : String
  temperature : Int
  condition : String
  visibility : ℚ
  humidity : Int
deriving DecidableEq, Repr

/-- The dynamic text nodes rendered by `WeatherCard`, in document order:
the location line, the headings, the temperature, the feels-like line
computed as `temperature - 1`, and the visibility and humidity tiles. The
`condition` prop is destructured by the component but never rendered. -/
def weatherCardRender (props : WeatherCardProps) : List String :=
  [ props.location,
    "Weather",
    "Now",
    toString props.temperature ++ "°C",
    "Feels like " ++ toString (props.temperature - 1) ++ "°C",
    "Visibility",
    toString props.visibility ++ " km",
    "Humidity",
    toString props.humidity ++ "%" ]

end Frontend

namespace RainSafe

/-! Concrete fixtures used by the witness theorems below: in-memory fake
store environments, query points, reports and observations. -/

def ptC1 : GeoPoint := { latitude := some 10, longitude := some 20 }

def envC1 : Env :=
  { findRecent := fun _ => []
    latestFor := fun _ => Option.none }

def reportsC3 : List Report :=
  [ { location := { latitude := some 10, longitude := some 20 }
      description := "street under water"
      severity := "knee-deep"
      submittedAt := 95 },
    { location := { latitude := some 10, longitude := some 20 }
      description := "puddles"
      severity := "ankle-deep"
      submittedAt := 99 } ]

def badPtC4 : GeoPoint := { latitude := some 200, longitude := some 20 }

def envC4a : Env :=
  { findRecent := fun _ =>
      [ { location := { latitude := some 200, longitude := some 20 }
          description := "deep water"
          severity := "waist-deep or higher"
          submittedAt := 0 } ]
    latestFor := fun _ => Option.none }

def envC4b : Env :=
  { findRecent := fun _ => []
    latestFor := fun _ => Option.none }

def ptC5 : GeoPoint := { latitude := some 10, longitude := some 20 }

def envC5 : Env :=
  { findRecent := fun _ => []
    latestFor := fun _ => Option.none }

def reportsC7 : List Report :=
  [ { location := { latitude := some 10, longitude := some 20 }
      description := "minor pooling"
      severity := "ankle-deep"
      submittedAt := 95 } ]

def staleC7 : Report :=
  { location := { latitude := some 10, longitude := some 20 }
    description := "old flood"
    severity := "waist-deep or higher"
    submittedAt := 0 }

def ptC8 : GeoPoint := { latitude := some 10, longitude := some 20 }

def obsC8 : WeatherObservation :=
  { location := { latitude := some 10, longitude := some 20 }
    temperature := Option.none
    humidity := some 80
    precipitation := some 35
    pressure := some 1005
    windSpeed := some 10
    observedAt := 0 }

def envC8 : Env :=
  { findRecent := fun _ => []
    latestFor := fun _ => some obsC8 }

end RainSafe

namespace Frontend

def cardPropsP : FloodRiskCardProps :=
  { location := "Paris, France", temperature := 30, riskLevel := "severe" }

def cardPropsQ : FloodRiskCardProps :=
  { location := "Dhaka, Bangladesh", temperature := 30, riskLevel := "low" }

def weatherPropsP : WeatherCardProps :=
  { location := "Dhaka, Bangladesh", temperature := 25
    condition := "Partly Cloudy", visibility := 43/10, humidity := 87 }

def weatherPropsQ : WeatherCardProps :=
  { location := "London", temperature := 25
    condition := "Sunny", visibility := 1, humidity := 2 }

end Frontend

namespace RainSafe

theorem combine_eq_max : ∀ a b : RiskLevel, combine a b = max a b := by
  decide

theorem combine_none_right : ∀ a : RiskLevel, combine a RiskLevel.none = a := by
  decide

theorem predict_invalid (v : WeatherFeatureVector)
    (h : validFeatures v = false) :
    predict v = Except.error EngineError.invalidFeatureVector := by
  cases hp : v.precipitation <;> simp [predict, hp, h]

/-- C2: the Risk Combiner returns the maximum of its two inputs under the
RiskLevel ordering, hence is commutative and idempotent, and is a total
function on all 25 input pairs. -/
theorem claim_C2_combine_is_max :
    ∀ a b : RiskLevel,
      combine a b = max a b ∧ combine a b = combine b a ∧ combine a a = a := by
  decide

/-- C1: whenever `assess` succeeds, the returned assessment's `finalLevel`
is the maximum of `thresholdLevel` and `predictedLevel`; in particular it
is never strictly below either sub-verdict, for every environment of
report and weather stores. -/
theorem claim_C1_dominant_max :
    ∀ (env : Env) (now : Int) (p : GeoPoint) (a : RiskAssessment),
      assess env now p = Except.ok a →
      a.finalLevel = max a.thresholdLevel a.predictedLevel ∧
      a.thresholdLevel ≤ a.finalLevel ∧ a.predictedLevel ≤ a.finalLevel := by
  intro env now p a h
  unfold assess at h
  split at h
  · injection h with h
    subst h
    refine ⟨combine_eq_max _ _, ?_, ?_⟩
    · rw [mkAssessment, combine_eq_max]
      exact le_max_left _ _
    · rw [mkAssessment, combine_eq_max]
      exact le_max_right _ _
  · simp at h

theorem claim_C1_witness :
    assess envC1 0 ptC1 = Except.ok (mkAssessment envC1 0 ptC1) ∧
    (mkAssessment envC1 0 ptC1).finalLevel =
      max (mkAssessment envC1 0 ptC1).thresholdLevel
        (mkAssessment envC1 0 ptC1).predictedLevel := by
  have h : assess envC1 0 ptC1 = Except.ok (mkAssessment envC1 0 ptC1) := by
    rfl
  exact ⟨h, (claim_C1_dominant_max envC1 0 ptC1 _ h).1⟩

/-- C3: on report sequences whose timestamps all lie within the recency
window, the Threshold Evaluator returns the maximum of the levels the
severities map to, and on the empty sequence it returns `None`. -/
theorem claim_C3_evaluate_is_max :
    (∀ (now window : Int) (rs : List Report),
       (∀ r ∈ rs, reportFresh now window r = true) →
       evaluate now window rs = maxLevel (rs.map levelOfReport)) ∧
    (∀ now window : Int, evaluate now window [] = RiskLevel.none) := by
  constructor
  · intro now window rs h
    unfold evaluate maxLevel
    rw [List.filter_eq_self.mpr (by simpa using h)]
    rw [show combine = fun a b => max a b from
      funext fun a => funext fun b => combine_eq_max a b]
  · intro now window
    rfl

theorem claim_C3_witness :
    evaluate 100 10 reportsC3 = maxLevel (reportsC3.map levelOfReport) ∧
    evaluate 100 10 reportsC3 = RiskLevel.moderate :=
  ⟨claim_C3_evaluate_is_max.1 100 10 reportsC3 (by decide), by decide⟩

/-- C4: a query point with a non-finite or out-of-range coordinate is
rejected with `InvalidLocation`, and the rejection is independent of both
stores (the result is the same for every pair of store environments, so
neither store is consulted); for every valid point `assess` succeeds, so
`InvalidLocation` is the only error that surfaces. -/
theorem claim_C4_invalid_location_fatal :
    ∀ (env env2 : Env) (now : Int) (p : GeoPoint),
      (validGeoPoint p = false →
        assess env now p = Except.error EngineError.invalidLocation ∧
        assess env now p = assess env2 now p) ∧
      (validGeoPoint p = true →
        assess env now p = Except.ok (mkAssessment env now p)) := by
  intro env env2 now p
  constructor
  · intro h
    constructor <;> simp [assess, h]
  · intro h
    simp [assess, h]

theorem claim_C4_witness :
    assess envC4a 0 badPtC4 = Except.error EngineError.invalidLocation ∧
    assess envC4a 0 badPtC4 = assess envC4b 0 badPtC4 :=
  (claim_C4_invalid_location_fatal envC4a envC4b 0 badPtC4).1 (by decide)

/-- C5: when the weather store has no fresh observation (`NoWeatherData`),
`assess` still succeeds, with `predictedLevel = None` and `finalLevel`
equal to the Threshold Evaluator's verdict on the nearby reports; with
empty reports as well, `finalLevel = None`. -/
theorem claim_C5_no_weather_degrades :
    ∀ (env : Env) (now : Int) (p : GeoPoint) (a : RiskAssessment),
      env.latestFor p = Option.none →
      assess env now p = Except.ok a →
      a.predictedLevel = RiskLevel.none ∧
      a.finalLevel = evaluate now recencyWindow (env.findRecent p) ∧
      (env.findRecent p = [] → a.finalLevel = RiskLevel.none) := by
  intro env now p a hw h
  unfold assess at h
  split at h
  · injection h with h
    subst h
    have hpred : predictedOf env p = RiskLevel.none := by
      simp [predictedOf, hw]
    refine ⟨by simp [mkAssessment, hpred], ?_, ?_⟩
    · simp [mkAssessment, hpred, combine_none_right]
    · intro hr
      simp [mkAssessment, hpred, hr, combine_none_right, evaluate]
  · simp at h

theorem claim_C5_witness :
    (mkAssessment envC5 0 ptC5).predictedLevel = RiskLevel.none ∧
    (mkAssessment envC5 0 ptC5).finalLevel = RiskLevel.none := by
  have h : assess envC5 0 ptC5 = Except.ok (mkAssessment envC5 0 ptC5) := by
    rfl
  have hw : envC5.latestFor ptC5 = Option.none := rfl
  have hmain := claim_C5_no_weather_degrades envC5 0 ptC5 _ hw h
  exact ⟨hmain.1, hmain.2.2 rfl⟩

/-- C6: the Threshold Evaluator's severity-to-level mapping is a
deterministic function of the severity text: "ankle-deep" ↦ Low,
"knee-deep" ↦ Moderate, "waist-deep or higher" ↦ Severe, and every other
severity text maps to Low. -/
theorem claim_C6_severity_mapping :
    severityToLevel ("ankle-deep") = RiskLevel.low ∧
    severityToLevel ("knee-deep") = RiskLevel.moderate ∧
    severityToLevel ("waist-deep or higher") = RiskLevel.severe ∧
    (∀ s : String, s ≠ "ankle-deep" → s ≠ "knee-deep" →
      s ≠ "waist-deep or higher" → severityToLevel s = RiskLevel.low) := by
  refine ⟨rfl, rfl, rfl, ?_⟩
  intro s h1 h2 h3
  simp [severityToLevel, h1, h2, h3]

theorem claim_C6_witness :
    severityToLevel ("chest-high water") = RiskLevel.low :=
  claim_C6_severity_mapping.2.2.2 ("chest-high water")
    (by decide) (by decide) (by decide)

/-- C7: appending a report older than the recency window — even a severe
one — leaves the Threshold Evaluator's result unchanged. -/
theorem claim_C7_stale_no_influence :
    ∀ (now window : Int) (rs : List Report) (s : Report),
      reportFresh now window s = false →
      evaluate now window (rs ++ [s]) = evaluate now window rs := by
  intro now window rs s hs
  simp [evaluate, List.filter_append, hs]

theorem claim_C7_witness :
    evaluate 100 10 (reportsC7 ++ [staleC7]) = evaluate 100 10 reportsC7 ∧
    evaluate 100 10 reportsC7 = RiskLevel.low :=
  ⟨claim_C7_stale_no_influence 100 10 reportsC7 staleC7 (by decide), by decide⟩

/-- C8: a feature vector with a required feature missing or outside its
plausible range makes `predict` fail with `InvalidFeatureVector`, and
`assess` recovers from that failure: it still succeeds, with
`predictedLevel = None` and the Threshold-only verdict as `finalLevel`. -/
theorem claim_C8_invalid_features_degrade :
    (∀ v : WeatherFeatureVector, validFeatures v = false →
      predict v = Except.error EngineError.invalidFeatureVector) ∧
    (∀ (env : Env) (now : Int) (p : GeoPoint) (w : WeatherObservation)
      (a : RiskAssessment),
      env.latestFor p = some w →
      validFeatures (featuresOf w) = false →
      assess env now p = Except.ok a →
      a.predictedLevel = RiskLevel.none ∧ a.finalLevel = a.thresholdLevel) := by
  constructor
  · exact predict_invalid
  · intro env now p w a hw hbad h
    unfold assess at h
    split at h
    · injection h with h
      subst h
      have hpred : predictedOf env p = RiskLevel.none := by
        simp [predictedOf, hw, predict_invalid _ hbad]
      constructor
      · simp [mkAssessment, hpred]
      · simp [mkAssessment, hpred, combine_none_right]
    · simp at h

theorem claim_C8_witness :
    predict (featuresOf obsC8) =
      Except.error EngineError.invalidFeatureVector ∧
    (mkAssessment envC8 0 ptC8).predictedLevel = RiskLevel.none := by
  have h : assess envC8 0 ptC8 = Except.ok (mkAssessment envC8 0 ptC8) := by
    rfl
  refine ⟨claim_C8_invalid_features_degrade.1 (featuresOf obsC8) (by decide), ?_⟩
  exact (claim_C8_invalid_features_degrade.2 envC8 0 ptC8 obsC8 _ rfl
    (by decide) h).1

end RainSafe

namespace Frontend

/-- C9: the dashboard's flood risk display is independent of the risk
verdict — `App` passes the constant string "moderate" as `riskLevel`, any
two prop values agreeing on `temperature` render identically (so neither
`riskLevel` nor `location` influences the output), and the rendered
location line is the fixed string "Dhaka, Bangladesh". -/
theorem claim_C9_flood_card_constant :
    appFloodRiskCardProps.riskLevel = "moderate" ∧
    (∀ p q : FloodRiskCardProps, p.temperature = q.temperature →
      floodRiskCardRender p = floodRiskCardRender q) ∧
    (∀ p : FloodRiskCardProps,
      (floodRiskCardRender p).head? = some ("Dhaka, Bangladesh")) := by
  refine ⟨rfl, ?_, fun p => rfl⟩
  intro p q h
  simp [floodRiskCardRender, h]

theorem claim_C9_witness :
    floodRiskCardRender cardPropsP = floodRiskCardRender cardPropsQ :=
  claim_C9_flood_card_constant.2.1 cardPropsP cardPropsQ (by decide)

/-- C10: for every numeric `temperature` prop `t`, `WeatherCard` renders
the "Feels like" line with value exactly `t - 1`, and that line is
unchanged by the `condition`, `visibility` and `humidity` props. -/
theorem claim_C10_feels_like :
    (∀ p : WeatherCardProps,
      (weatherCardRender p)[4]? =
        some ("Feels like " ++ toString (p.temperature - 1) ++ "°C")) ∧
    (∀ p q : WeatherCardProps, p.temperature = q.temperature →
      (weatherCardRender p)[4]? = (weatherCardRender q)[4]?) := by
  refine ⟨fun p => rfl, ?_⟩
  intro p q h
  simp [weatherCardRender, h]

theorem claim_C10_witness :
    (weatherCardRender weatherPropsP)[4]? = some ("Feels like 24°C") ∧
    (weatherCardRender weatherPropsP)[4]? =
      (weatherCardRender weatherPropsQ)[4]? :=
  ⟨rfl, claim_C10_feels_like.2 weatherPropsP weatherPropsQ (by decide)⟩

end Frontend
